import Mathlib

/-!
Verification of the medallion-architecture data-lake pipeline
(`storage/local_storage.py`, `pipeline/bronze_to_silver.py`,
`pipeline/silver_to_gold.py`) against its specification.

Shallow embedding conventions:
* A pandas DataFrame is a `List` of per-domain record structures; a missing
  (NaN/None) cell is `Option.none`.
* Monetary / numeric columns are `ℚ`.
* Datetimes are abstract: a parsed datetime is a `Nat`; `pd.to_datetime(...,
  errors="coerce")` is a parameter `pt : String → Option Nat` (`none` models
  `NaT`); `.dt.date` is a parameter `dateOf : Nat → Nat`.
* The semicolon-joined `validation_errors` string built by repeated
  `errors[mask] += f"TAG; "` is modelled as the ordered list of the appended
  tags; the source string is `String.intercalate "; "` of this list, so the
  list is empty exactly when the stripped string is empty.
* The per-domain processed-state JSON file holds a list of path strings; the
  python `set` built from it is modelled by membership in a `List String`.
-/

/-! ## Ledger (`storage/local_storage.py`) -/

/-- Lexicographic (code-point) comparison of character lists: the order python
`sorted` uses on strings. -/
def charListLe : List Char → List Char → Bool
  | [], _ => true
  | _ :: _, [] => false
  | a :: as, b :: bs => if a < b then true else if a = b then charListLe as bs else false

/-- Python string comparison `a <= b` (code-point lexicographic). -/
def strLe (a b : String) : Bool := charListLe a.data b.data

/-- Python `sorted` on a list of strings (stable sort, lexicographic order). -/
def sortedStrings (l : List String) : List String :=
  l.insertionSort (fun a b => strLe a b = true)

/-- `_load_processed_state`: read `.state/<domain>_processed.json`.
`stateFile` is the file content when the file exists (`none` = missing);
`jsonLoad` models `json.load` (`none` = the content is corrupt and
`json.load` raises, which the source does not catch). -/
def _load_processed_state (stateFile : Option String)
    (jsonLoad : String → Option (List String)) : Except String (List String) :=
  match stateFile with
  | none => Except.ok []
  | some content =>
    match jsonLoad content with
    | some entries => Except.ok entries
    | none => Except.error "json.JSONDecodeError"

/-- `get_unprocessed_bronze_files`: all bronze csv paths of the domain, in
sorted (rglob + `sorted`) order, restricted to those not in the processed
state. `allFiles` is the list of bronze csv paths on disk, `processed` the
loaded state. -/
def get_unprocessed_bronze_files (allFiles processed : List String) : List String :=
  (sortedStrings allFiles).filter (fun f => !processed.contains f)

/-- `mark_bronze_files_processed`: add `files` to the processed state
(`processed.update(...)`; only membership is observable in the python set). -/
def mark_bronze_files_processed (processed files : List String) : List String :=
  processed ++ files

/-! ## The bronze → silver run loop (`pipeline/bronze_to_silver.py`, `run`) -/

/-- Observable outcome of the per-domain body of `run`. -/
structure RunOutcome (ρ : Type) where
  combined : List ρ
  wroteSilver : Bool
  marked : List String
deriving DecidableEq

/-- The per-domain loop body of `run`: read each unprocessed file
(`parse f = none` models `pd.read_csv` raising, caught and logged); if no
file was readable, neither silver output nor ledger marking happens;
otherwise the readable contents are concatenated, cleaned and saved, and the
WHOLE file list `files` is passed to `mark_bronze_files_processed`. -/
def bronze_to_silver_domain {ρ : Type} (parse : String → Option (List ρ))
    (files : List String) : RunOutcome ρ :=
  let dfs := files.filterMap parse
  if dfs.isEmpty then { combined := [], wroteSilver := false, marked := [] }
  else { combined := dfs.flatten, wroteSilver := true, marked := files }

/-! ## Validation & cleaning engine (`pipeline/bronze_to_silver.py`) -/

/-- `round(x, 2)` on a numeric pandas column, over ℚ. -/
def round2 (x : ℚ) : ℚ := ((round (x * 100) : ℤ) : ℚ) / 100

/-- `df.drop_duplicates(subset=[key])`, accumulator form: keep a row iff its
key was not seen earlier in the list. -/
def dropDupAux {α κ : Type} [DecidableEq κ] (key : α → κ) : List κ → List α → List α
  | _, [] => []
  | seen, x :: xs =>
    if key x ∈ seen then dropDupAux key seen xs
    else x :: dropDupAux key (key x :: seen) xs

/-- `df.drop_duplicates(subset=[key])`: keep the first occurrence of every
key, in input order (pandas `keep="first"` default; NaN keys compare equal,
modelled by `Option` keys). -/
def drop_duplicates {α κ : Type} [DecidableEq κ] (key : α → κ) (l : List α) : List α :=
  dropDupAux key [] l

/-- One raw `sales` csv row (columns produced by `sales_generator.py`). -/
structure SalesRow where
  sale_id : Option String
  timestamp : Option String
  customer_id : Option String
  product_id : Option String
  product_name : Option String
  category : Option String
  quantity : Option ℚ
  unit_price : Option ℚ
  total_amount : Option ℚ
  payment_method : Option String
  status : Option String
deriving DecidableEq

/-- A sales row after step 1 of `_process_sales` (`pd.to_datetime(...,
utc=True, errors="coerce")`): the timestamp column now holds a parsed
datetime or `NaT`. -/
structure SalesParsed where
  sale_id : Option String
  timestamp : Option Nat
  customer_id : Option String
  product_id : Option String
  product_name : Option String
  category : Option String
  quantity : Option ℚ
  unit_price : Option ℚ
  total_amount : Option ℚ
  payment_method : Option String
  status : Option String
deriving DecidableEq

/-- Step 1 of `_process_sales` on one row: coerce the timestamp, all other
columns unchanged. -/
def parseSalesRow (pt : String → Option Nat) (r : SalesRow) : SalesParsed :=
  { sale_id := r.sale_id
    timestamp := r.timestamp.bind pt
    customer_id := r.customer_id
    product_id := r.product_id
    product_name := r.product_name
    category := r.category
    quantity := r.quantity
    unit_price := r.unit_price
    total_amount := r.total_amount
    payment_method := r.payment_method
    status := r.status }

/-- `required_cols` of `_process_sales`, in source order. -/
def salesRequiredCols : List String :=
  ["sale_id", "timestamp", "customer_id", "product_id",
   "quantity", "unit_price", "total_amount"]

/-- `df[required_cols].isnull()` for one sales row and one column name. -/
def salesIsNull (r : SalesParsed) (c : String) : Bool :=
  match c with
  | "sale_id" => r.sale_id.isNone
  | "timestamp" => r.timestamp.isNone
  | "customer_id" => r.customer_id.isNone
  | "product_id" => r.product_id.isNone
  | "quantity" => r.quantity.isNone
  | "unit_price" => r.unit_price.isNone
  | "total_amount" => r.total_amount.isNone
  | _ => false

/-- Step 3 of `_process_sales` on one row: the loop
`for col in required_cols: errors[nulls[col]] += f"NULL:{col}; "` appends,
in `required_cols` order, one `NULL:<col>` tag per null required column. -/
def salesErrorTags (r : SalesParsed) : List String :=
  (salesRequiredCols.filter (fun c => salesIsNull r c)).map (fun c => "NULL:" ++ c)

/-- Step 4 of `_process_sales` on one row: when quantity and unit_price are
both present, recompute `expected = round(quantity * unit_price, 2)` and
overwrite `total_amount` when `|total_amount - expected| > 0.01`.  A NaN
`total_amount` gives a NaN comparison, which pandas treats as `False`
(no overwrite), modelled by the `none` branch. -/
def fixSalesTotal (r : SalesParsed) : SalesParsed :=
  match r.quantity, r.unit_price with
  | some q, some p =>
    let expected := round2 (q * p)
    let mismatch :=
      match r.total_amount with
      | some t => decide (|t - expected| > 1 / 100)
      | none => false
    if mismatch then { r with total_amount := some expected } else r
  | _, _ => r

/-- A cleaned (silver) record: the row plus the three engine-added columns. -/
structure CleanRec (ρ : Type) where
  row : ρ
  is_valid : Bool
  validation_errors : List String
  processed_at : Nat
deriving DecidableEq

/-- Steps 3–5 of `_process_sales` on one (post-dedup) row: repair the total,
attach the error tags, `is_valid` = (stripped error string empty) = (tag list
empty), and stamp `processed_at`. -/
def finalizeSalesRow (now : Nat) (r : SalesParsed) : CleanRec SalesParsed :=
  { row := fixSalesTotal r
    is_valid := (salesErrorTags r).isEmpty
    validation_errors := salesErrorTags r
    processed_at := now }

/-- `_process_sales`: coerce timestamps, deduplicate on `sale_id` (first
occurrence kept), then validate/repair/finalize each surviving row. -/
def _process_sales (pt : String → Option Nat) (now : Nat)
    (rows : List SalesRow) : List (CleanRec SalesParsed) :=
  (drop_duplicates (fun r => r.sale_id) (rows.map (parseSalesRow pt))).map
    (finalizeSalesRow now)

/-- `VALID_EVENT_TYPES` (a python set; only membership is used). -/
def VALID_EVENT_TYPES : List String :=
  ["login", "browse", "add_to_cart", "checkout", "logout"]

/-- `VALID_MOVEMENT_TYPES` (a python set; only membership is used). -/
def VALID_MOVEMENT_TYPES : List String :=
  ["inbound", "outbound", "adjustment"]

/-- One raw `customer_events` csv row (columns from
`customer_events_generator.py`). -/
structure EventRow where
  event_id : Option String
  timestamp : Option String
  customer_id : Option String
  session_id : Option String
  event_type : Option String
  product_id : Option String
  page_url : Option String
  device_type : Option String
deriving DecidableEq

/-- An events row after timestamp coercion. -/
structure EventParsed where
  event_id : Option String
  timestamp : Option Nat
  customer_id : Option String
  session_id : Option String
  event_type : Option String
  product_id : Option String
  page_url : Option String
  device_type : Option String
deriving DecidableEq

/-- Step 1 of `_process_customer_events` on one row. -/
def parseEventRow (pt : String → Option Nat) (r : EventRow) : EventParsed :=
  { event_id := r.event_id
    timestamp := r.timestamp.bind pt
    customer_id := r.customer_id
    session_id := r.session_id
    event_type := r.event_type
    product_id := r.product_id
    page_url := r.page_url
    device_type := r.device_type }

/-- `required_cols` of `_process_customer_events`, in source order. -/
def eventRequiredCols : List String :=
  ["event_id", "timestamp", "customer_id", "session_id", "event_type"]

/-- `isnull()` for one events row and one required-column name. -/
def eventIsNull (r : EventParsed) (c : String) : Bool :=
  match c with
  | "event_id" => r.event_id.isNone
  | "timestamp" => r.timestamp.isNone
  | "customer_id" => r.customer_id.isNone
  | "session_id" => r.session_id.isNone
  | "event_type" => r.event_type.isNone
  | _ => false

/-- Steps 3–4 of `_process_customer_events` on one row: `NULL:<col>` tags in
`required_cols` order, then `INVALID_EVENT_TYPE` when the event type is
present but not in `VALID_EVENT_TYPES`. -/
def eventErrorTags (r : EventParsed) : List String :=
  (eventRequiredCols.filter (fun c => eventIsNull r c)).map (fun c => "NULL:" ++ c) ++
    (match r.event_type with
     | some t => if VALID_EVENT_TYPES.contains t then [] else ["INVALID_EVENT_TYPE"]
     | none => [])

/-- Step 5 of `_process_customer_events` on one (post-dedup) row. -/
def finalizeEventRow (now : Nat) (r : EventParsed) : CleanRec EventParsed :=
  { row := r
    is_valid := (eventErrorTags r).isEmpty
    validation_errors := eventErrorTags r
    processed_at := now }

/-- `_process_customer_events`: coerce timestamps, deduplicate on
`event_id` (first occurrence kept), validate, finalize. -/
def _process_customer_events (pt : String → Option Nat) (now : Nat)
    (rows : List EventRow) : List (CleanRec EventParsed) :=
  (drop_duplicates (fun r => r.event_id) (rows.map (parseEventRow pt))).map
    (finalizeEventRow now)

/-- One raw `inventory` csv row (columns from `inventory_generator.py`). -/
structure InvRow where
  movement_id : Option String
  timestamp : Option String
  product_id : Option String
  product_name : Option String
  warehouse_id : Option String
  movement_type : Option String
  quantity : Option ℚ
  unit_cost : Option ℚ
  supplier_id : Option String
deriving DecidableEq

/-- An inventory row after timestamp coercion. -/
structure InvParsed where
  movement_id : Option String
  timestamp : Option Nat
  product_id : Option String
  product_name : Option String
  warehouse_id : Option String
  movement_type : Option String
  quantity : Option ℚ
  unit_cost : Option ℚ
  supplier_id : Option String
deriving DecidableEq

/-- Step 1 of `_process_inventory` on one row. -/
def parseInvRow (pt : String → Option Nat) (r : InvRow) : InvParsed :=
  { movement_id := r.movement_id
    timestamp := r.timestamp.bind pt
    product_id := r.product_id
    product_name := r.product_name
    warehouse_id := r.warehouse_id
    movement_type := r.movement_type
    quantity := r.quantity
    unit_cost := r.unit_cost
    supplier_id := r.supplier_id }

/-- `required_cols` of `_process_inventory`, in source order. -/
def invRequiredCols : List String :=
  ["movement_id", "timestamp", "product_id", "warehouse_id", "movement_type", "quantity"]

/-- `isnull()` for one inventory row and one required-column name. -/
def invIsNull (r : InvParsed) (c : String) : Bool :=
  match c with
  | "movement_id" => r.movement_id.isNone
  | "timestamp" => r.timestamp.isNone
  | "product_id" => r.product_id.isNone
  | "warehouse_id" => r.warehouse_id.isNone
  | "movement_type" => r.movement_type.isNone
  | "quantity" => r.quantity.isNone
  | _ => false

/-- Steps 3–5 of `_process_inventory` on one row: `NULL:<col>` tags, then
`INVALID_MOVEMENT_TYPE` for a present-but-unknown type, then
`NON_POSITIVE_QUANTITY` for a present quantity ≤ 0 (the quantity column is
already numeric in the model, so `pd.to_numeric` coercion is the identity). -/
def invErrorTags (r : InvParsed) : List String :=
  (invRequiredCols.filter (fun c => invIsNull r c)).map (fun c => "NULL:" ++ c) ++
    (match r.movement_type with
     | some t => if VALID_MOVEMENT_TYPES.contains t then [] else ["INVALID_MOVEMENT_TYPE"]
     | none => []) ++
    (match r.quantity with
     | some q => if q ≤ 0 then ["NON_POSITIVE_QUANTITY"] else []
     | none => [])

/-- Step 6 of `_process_inventory` on one (post-dedup) row. -/
def finalizeInvRow (now : Nat) (r : InvParsed) : CleanRec InvParsed :=
  { row := r
    is_valid := (invErrorTags r).isEmpty
    validation_errors := invErrorTags r
    processed_at := now }

/-- `_process_inventory`: coerce timestamps, deduplicate on `movement_id`
(first occurrence kept), validate, finalize. -/
def _process_inventory (pt : String → Option Nat) (now : Nat)
    (rows : List InvRow) : List (CleanRec InvParsed) :=
  (drop_duplicates (fun r => r.movement_id) (rows.map (parseInvRow pt))).map
    (finalizeInvRow now)

/-! ## Silver reads and gold aggregation (`silver_to_gold.py`) -/

/-- `read_from_silver`: concatenation (`pd.concat`) of every silver parquet
partition of a domain, in file order. -/
def read_from_silver {α : Type} (partitions : List (List α)) : List α :=
  partitions.flatten

/-- Pandas `nunique` over a column: number of distinct non-null values. -/
def countDistinct (l : List String) : Nat := l.dedup.length

/-- Pandas `sum` over a nullable numeric column: NaN cells are skipped, an
empty column sums to 0. -/
def sumCol (l : List (Option ℚ)) : ℚ := (l.filterMap id).sum

/-- Pandas `count` over a nullable column: number of non-null cells. -/
def countCol {β : Type} (l : List (Option β)) : Nat := (l.filterMap id).length

/-- Pandas `mean` over a nullable numeric column: NaN cells are skipped; an
all-null column has no mean (NaN, modelled as `none`). -/
def meanCol (l : List (Option ℚ)) : Option ℚ :=
  let v := l.filterMap id
  if v.isEmpty then none else some (v.sum / v.length)

/-- The distinct group keys of a `groupby`, in first-occurrence order.
(Pandas additionally sorts the keys; no claim concerns row order of the
aggregate outputs, and every other aspect of grouping is preserved.) -/
def groupKeys {α κ : Type} [DecidableEq κ] (keyOf : α → Option κ) (l : List α) : List κ :=
  drop_duplicates id (l.filterMap keyOf)

/-- One row of `daily_sales_summary` (groupby date, `.round(2)` applied to
the float aggregates). -/
structure DailySalesRow where
  date : Nat
  total_revenue : ℚ
  order_count : Nat
  avg_order_value : Option ℚ
  unique_customers : Nat
deriving DecidableEq

/-- One row of `category_sales_summary`. -/
structure CatSalesRow where
  date : Nat
  category : String
  category_revenue : ℚ
  category_orders : Nat
  avg_unit_price : Option ℚ
deriving DecidableEq

/-- One row of `payment_method_summary`. -/
structure PaySalesRow where
  date : Nat
  payment_method : String
  payment_revenue : ℚ
  payment_count : Nat
deriving DecidableEq

/-- The three gold tables written by `_build_daily_sales_summary`. -/
structure SalesGold where
  daily : List DailySalesRow
  category : List CatSalesRow
  payment : List PaySalesRow
deriving DecidableEq

/-- Group key `date` of a valid sales record (groupby drops NaT dates). -/
def salesDateKey (dateOf : Nat → Nat) (c : CleanRec SalesParsed) : Option Nat :=
  c.row.timestamp.map dateOf

/-- Group key `(date, category)` (groupby drops rows with a NaN key part). -/
def salesCatKey (dateOf : Nat → Nat) (c : CleanRec SalesParsed) : Option (Nat × String) :=
  match c.row.timestamp, c.row.category with
  | some ts, some cat => some (dateOf ts, cat)
  | _, _ => none

/-- Group key `(date, payment_method)`. -/
def salesPayKey (dateOf : Nat → Nat) (c : CleanRec SalesParsed) : Option (Nat × String) :=
  match c.row.timestamp, c.row.payment_method with
  | some ts, some pm => some (dateOf ts, pm)
  | _, _ => none

/-- The `daily_sales_summary` aggregate row of one date group. -/
def dailySalesRowOf (dateOf : Nat → Nat) (valid : List (CleanRec SalesParsed))
    (d : Nat) : DailySalesRow :=
  let g := valid.filter (fun c => decide (salesDateKey dateOf c = some d))
  { date := d
    total_revenue := round2 (sumCol (g.map (fun c => c.row.total_amount)))
    order_count := countDistinct (g.filterMap (fun c => c.row.sale_id))
    avg_order_value := (meanCol (g.map (fun c => c.row.total_amount))).map round2
    unique_customers := countDistinct (g.filterMap (fun c => c.row.customer_id)) }

/-- The `category_sales_summary` aggregate row of one (date, category) group. -/
def catSalesRowOf (dateOf : Nat → Nat) (valid : List (CleanRec SalesParsed))
    (k : Nat × String) : CatSalesRow :=
  let g := valid.filter (fun c => decide (salesCatKey dateOf c = some k))
  { date := k.1
    category := k.2
    category_revenue := round2 (sumCol (g.map (fun c => c.row.total_amount)))
    category_orders := countDistinct (g.filterMap (fun c => c.row.sale_id))
    avg_unit_price := (meanCol (g.map (fun c => c.row.unit_price))).map round2 }

/-- The `payment_method_summary` aggregate row of one (date, payment) group. -/
def paySalesRowOf (dateOf : Nat → Nat) (valid : List (CleanRec SalesParsed))
    (k : Nat × String) : PaySalesRow :=
  let g := valid.filter (fun c => decide (salesPayKey dateOf c = some k))
  { date := k.1
    payment_method := k.2
    payment_revenue := round2 (sumCol (g.map (fun c => c.row.total_amount)))
    payment_count := countDistinct (g.filterMap (fun c => c.row.sale_id)) }

/-- The three sales gold tables computed from the valid rows. -/
def salesGoldCore (dateOf : Nat → Nat) (valid : List (CleanRec SalesParsed)) : SalesGold :=
  { daily := (groupKeys (salesDateKey dateOf) valid).map (dailySalesRowOf dateOf valid)
    category := (groupKeys (salesCatKey dateOf) valid).map (catSalesRowOf dateOf valid)
    payment := (groupKeys (salesPayKey dateOf) valid).map (paySalesRowOf dateOf valid) }

/-- `_build_daily_sales_summary`: skip when silver is empty or has no valid
row; otherwise aggregate the `is_valid` rows into the three sales gold
tables. -/
def _build_daily_sales_summary (dateOf : Nat → Nat)
    (df : List (CleanRec SalesParsed)) : Option SalesGold :=
  if df.isEmpty then none
  else
    let valid := df.filter (fun c => c.is_valid)
    if valid.isEmpty then none
    else some (salesGoldCore dateOf valid)

/-- One row of `customer_activity_summary`. -/
structure ActivityRow where
  date : Nat
  event_type : String
  event_count : Nat
  unique_customers : Nat
  unique_sessions : Nat
deriving DecidableEq

/-- One row of `device_usage_summary`. -/
structure DeviceRow where
  date : Nat
  device_type : String
  session_count : Nat
  event_count : Nat
deriving DecidableEq

/-- The two gold tables written by `_build_customer_activity_summary`. -/
structure EventsGold where
  activity : List ActivityRow
  device : List DeviceRow
deriving DecidableEq

/-- Group key `(date, event_type)`. -/
def eventTypeKey (dateOf : Nat → Nat) (c : CleanRec EventParsed) : Option (Nat × String) :=
  match c.row.timestamp, c.row.event_type with
  | some ts, some t => some (dateOf ts, t)
  | _, _ => none

/-- Group key `(date, device_type)`. -/
def eventDeviceKey (dateOf : Nat → Nat) (c : CleanRec EventParsed) : Option (Nat × String) :=
  match c.row.timestamp, c.row.device_type with
  | some ts, some t => some (dateOf ts, t)
  | _, _ => none

/-- The `customer_activity_summary` row of one (date, event_type) group. -/
def activityRowOf (dateOf : Nat → Nat) (valid : List (CleanRec EventParsed))
    (k : Nat × String) : ActivityRow :=
  let g := valid.filter (fun c => decide (eventTypeKey dateOf c = some k))
  { date := k.1
    event_type := k.2
    event_count := countCol (g.map (fun c => c.row.event_id))
    unique_customers := countDistinct (g.filterMap (fun c => c.row.customer_id))
    unique_sessions := countDistinct (g.filterMap (fun c => c.row.session_id)) }

/-- The `device_usage_summary` row of one (date, device_type) group. -/
def deviceRowOf (dateOf : Nat → Nat) (valid : List (CleanRec EventParsed))
    (k : Nat × String) : DeviceRow :=
  let g := valid.filter (fun c => decide (eventDeviceKey dateOf c = some k))
  { date := k.1
    device_type := k.2
    session_count := countDistinct (g.filterMap (fun c => c.row.session_id))
    event_count := countCol (g.map (fun c => c.row.event_id)) }

/-- The two events gold tables computed from the valid rows. -/
def eventsGoldCore (dateOf : Nat → Nat) (valid : List (CleanRec EventParsed)) : EventsGold :=
  { activity := (groupKeys (eventTypeKey dateOf) valid).map (activityRowOf dateOf valid)
    device := (groupKeys (eventDeviceKey dateOf) valid).map (deviceRowOf dateOf valid) }

/-- `_build_customer_activity_summary`: skip when silver is empty or has no
valid row; otherwise aggregate the `is_valid` rows into the two events gold
tables. -/
def _build_customer_activity_summary (dateOf : Nat → Nat)
    (df : List (CleanRec EventParsed)) : Option EventsGold :=
  if df.isEmpty then none
  else
    let valid := df.filter (fun c => c.is_valid)
    if valid.isEmpty then none
    else some (eventsGoldCore dateOf valid)

/-- One row of `inventory_movement_summary`. -/
structure MovementRow where
  date : Nat
  product_id : String
  product_name : String
  warehouse_id : String
  movement_type : String
  total_quantity : ℚ
  total_cost : ℚ
  movement_count : Nat
deriving DecidableEq

/-- One row of `inventory_net_position` (after the pivot and the
ensure-columns step; valid rows only carry the three known movement types). -/
structure NetPositionRow where
  date : Nat
  product_id : String
  product_name : String
  warehouse_id : String
  inbound : ℚ
  outbound : ℚ
  adjustment : ℚ
  net_position : ℚ
deriving DecidableEq

/-- The two gold tables written by `_build_inventory_summary`. -/
structure InvGold where
  movement : List MovementRow
  netpos : List NetPositionRow
deriving DecidableEq

/-- Group key `(date, product_id, product_name, warehouse_id,
movement_type)` (groupby drops rows with any NaN key part). -/
def invMovementKey (dateOf : Nat → Nat) (c : CleanRec InvParsed) :
    Option (Nat × String × String × String × String) :=
  match c.row.timestamp, c.row.product_id, c.row.product_name,
      c.row.warehouse_id, c.row.movement_type with
  | some ts, some pid, some pn, some wid, some mt => some (dateOf ts, pid, pn, wid, mt)
  | _, _, _, _, _ => none

/-- Pivot index `(date, product_id, product_name, warehouse_id)`
(`pivot_table` drops rows with any NaN index part). -/
def invNetKey (dateOf : Nat → Nat) (c : CleanRec InvParsed) :
    Option (Nat × String × String × String) :=
  match c.row.timestamp, c.row.product_id, c.row.product_name, c.row.warehouse_id with
  | some ts, some pid, some pn, some wid => some (dateOf ts, pid, pn, wid)
  | _, _, _, _ => none

/-- The `inventory_movement_summary` row of one group. -/
def movementRowOf (dateOf : Nat → Nat) (valid : List (CleanRec InvParsed))
    (k : Nat × String × String × String × String) : MovementRow :=
  let g := valid.filter (fun c => decide (invMovementKey dateOf c = some k))
  { date := k.1
    product_id := k.2.1
    product_name := k.2.2.1
    warehouse_id := k.2.2.2.1
    movement_type := k.2.2.2.2
    total_quantity := round2 (sumCol (g.map (fun c => c.row.quantity)))
    total_cost := round2 (sumCol (g.map (fun c => c.row.unit_cost)))
    movement_count := countCol (g.map (fun c => c.row.movement_id)) }

/-- The summed quantity of one pivot cell: rows of the group whose
`movement_type` is `t` (an absent combination sums to 0, matching
`fill_value=0` and the ensure-columns loop). -/
def pivotQty (dateOf : Nat → Nat) (valid : List (CleanRec InvParsed))
    (k : Nat × String × String × String) (t : String) : ℚ :=
  sumCol ((valid.filter (fun c =>
    decide (invNetKey dateOf c = some k) && decide (c.row.movement_type = some t))).map
      (fun c => c.row.quantity))

/-- The `inventory_net_position` row of one pivot index: one numeric column
per known movement type and `net_position = inbound - outbound`. -/
def netPositionRowOf (dateOf : Nat → Nat) (valid : List (CleanRec InvParsed))
    (k : Nat × String × String × String) : NetPositionRow :=
  { date := k.1
    product_id := k.2.1
    product_name := k.2.2.1
    warehouse_id := k.2.2.2
    inbound := pivotQty dateOf valid k "inbound"
    outbound := pivotQty dateOf valid k "outbound"
    adjustment := pivotQty dateOf valid k "adjustment"
    net_position := pivotQty dateOf valid k "inbound" - pivotQty dateOf valid k "outbound" }

/-- The two inventory gold tables computed from the valid rows. -/
def invGoldCore (dateOf : Nat → Nat) (valid : List (CleanRec InvParsed)) : InvGold :=
  { movement := (groupKeys (invMovementKey dateOf) valid).map (movementRowOf dateOf valid)
    netpos := (groupKeys (invNetKey dateOf) valid).map (netPositionRowOf dateOf valid) }

/-- `_build_inventory_summary`: skip when silver is empty or has no valid
row; otherwise aggregate the `is_valid` rows into the movement summary and
the net-position pivot. -/
def _build_inventory_summary (dateOf : Nat → Nat)
    (df : List (CleanRec InvParsed)) : Option InvGold :=
  if df.isEmpty then none
  else
    let valid := df.filter (fun c => c.is_valid)
    if valid.isEmpty then none
    else some (invGoldCore dateOf valid)

/-! ## Gold snapshot persistence (`save_to_gold`) -/

/-- A file store: an association of paths (as segment lists) to file
contents. Writing to an existing path replaces the content (what
`DataFrame.to_parquet` does to an existing file); writing to a fresh path
appends a new file. -/
def storeWrite {α : Type} (path : List String) (data : α) :
    List (List String × α) → List (List String × α)
  | [] => [(path, data)]
  | (p, d) :: rest =>
    if p = path then (p, data) :: rest else (p, d) :: storeWrite path data rest

/-- Read one file from the store. -/
def storeRead {α : Type} (path : List String) : List (List String × α) → Option α
  | [] => none
  | (p, d) :: rest => if p = path then some d else storeRead path rest

/-- `dt.strftime('%Y%m%d_%H%M%S')`: a second-resolution timestamp rendered
as a string; two datetimes render equal exactly when they fall in the same
second, so the format is modelled as rendering the (seconds) timestamp. -/
def fmtTimestamp (t : Nat) : String := toString t

/-- The snapshot filename `f"{table_name}_{dt.strftime('%Y%m%d_%H%M%S')}.parquet"`. -/
def gold_filename (table : String) (t : Nat) : String :=
  table ++ "_" ++ fmtTimestamp t ++ ".parquet"

/-- The snapshot path `gold/<table_name>/<filename>`. -/
def gold_path (table : String) (t : Nat) : List String :=
  ["gold", table, gold_filename table t]

/-- `save_to_gold`: write the DataFrame to the timestamped snapshot path of
the table. -/
def save_to_gold {α : Type} (table : String) (t : Nat) (df : α)
    (store : List (List String × α)) : List (List String × α) :=
  storeWrite (gold_path table t) df store

/-! ## Concrete example data used by witnesses and counterexamples -/

/-- A fully populated, parseable raw sales row. -/
def salesRowEx : SalesRow :=
  { sale_id := some "S-1", timestamp := some "2024-01-01T00:00:00+00:00"
    customer_id := some "CUST-1", product_id := some "PROD-1"
    product_name := some "Laptop", category := some "Electronics"
    quantity := some 1, unit_price := some 2, total_amount := some 2
    payment_method := some "card", status := some "completed" }

/-- A `pd.read_csv` model for one bronze run: `good.csv` parses to one sales
row, every other file (in particular `bad.csv`) raises. -/
def parseEx : String → Option (List SalesRow)
  | "good.csv" => some [salesRowEx]
  | _ => none

/-- A `json.load` model that only accepts the literal text `[]`. -/
def jsonLoadEx : String → Option (List String)
  | "[]" => some []
  | _ => none

/-- A parsed sales row whose `quantity` and `unit_price` are both missing. -/
def salesMissingTwo : SalesParsed :=
  { sale_id := some "S-2", timestamp := some 0
    customer_id := some "CUST-2", product_id := some "PROD-2"
    product_name := some "Phone", category := some "Electronics"
    quantity := none, unit_price := none, total_amount := some 10
    payment_method := some "cash", status := some "completed" }

/-- A parsed sales row with quantity 3, unit price 10.00 and a corrupted
total of 35.00 (the spec's derived-value-repair example). -/
def salesCorruptTotal : SalesParsed :=
  { sale_id := some "S-3", timestamp := some 0
    customer_id := some "CUST-3", product_id := some "PROD-3"
    product_name := some "Desk", category := some "Furniture"
    quantity := some 3, unit_price := some 10, total_amount := some 35
    payment_method := some "card", status := some "completed" }

/-- A fully populated parsed sales row (valid after cleaning). -/
def salesFull : SalesParsed :=
  { sale_id := some "S-4", timestamp := some 0
    customer_id := some "CUST-4", product_id := some "PROD-4"
    product_name := some "Chair", category := some "Furniture"
    quantity := some 2, unit_price := some 5, total_amount := some 10
    payment_method := some "card", status := some "completed" }

/-- An inventory movement of one group: inbound 50. -/
def invInbound : InvParsed :=
  { movement_id := some "M-1", timestamp := some 0
    product_id := some "P-1", product_name := some "Widget"
    warehouse_id := some "W-1", movement_type := some "inbound"
    quantity := some 50, unit_cost := some 1, supplier_id := some "SUP-1" }

/-- An inventory movement of the same group: outbound 20. -/
def invOutbound : InvParsed :=
  { movement_id := some "M-2", timestamp := some 0
    product_id := some "P-1", product_name := some "Widget"
    warehouse_id := some "W-1", movement_type := some "outbound"
    quantity := some 20, unit_cost := some 1, supplier_id := none }

/-- An inventory movement of the same group: adjustment 5. -/
def invAdjustment : InvParsed :=
  { movement_id := some "M-3", timestamp := some 0
    product_id := some "P-1", product_name := some "Widget"
    warehouse_id := some "W-1", movement_type := some "adjustment"
    quantity := some 5, unit_cost := some 1, supplier_id := none }

/-- A raw sales row whose timestamp text is not parseable. -/
def salesBadTimestamp : SalesRow :=
  { sale_id := some "S-5", timestamp := some "not-a-date"
    customer_id := some "CUST-5", product_id := some "PROD-5"
    product_name := some "Lamp", category := some "Furniture"
    quantity := some 1, unit_price := some 4, total_amount := some 4
    payment_method := some "card", status := some "completed" }

/-- A timestamp parser that rejects everything (every string is `NaT`). -/
def ptNone : String → Option Nat := fun _ => none

/-! ## Helper lemmas -/

/-- Filtering the deduplicated list down to one key keeps exactly the first
occurrence of that key, whatever keys were already seen being excluded. -/
theorem dropDupAux_filter {α κ : Type} [DecidableEq κ] (key : α → κ)
    (k : κ) : ∀ (seen : List κ) (l : List α),
    (dropDupAux key seen l).filter (fun x => decide (key x = k)) =
      if k ∈ seen then [] else (l.filter (fun x => decide (key x = k))).take 1 := by
  intro seen l
  induction l generalizing seen with
  | nil => simp [dropDupAux]
  | cons x xs ih =>
    by_cases hx : key x ∈ seen <;> by_cases hk : k ∈ seen <;> by_cases hxk : key x = k <;>
      simp_all [dropDupAux, List.filter_cons] <;>
      exact fun h => absurd h.symm hxk

/-- `drop_duplicates` keeps, for every key, exactly the first occurrence of
that key in input order. -/
theorem drop_duplicates_filter {α κ : Type} [DecidableEq κ] (key : α → κ)
    (k : κ) (l : List α) :
    (drop_duplicates key l).filter (fun x => decide (key x = k)) =
      (l.filter (fun x => decide (key x = k))).take 1 := by
  rw [drop_duplicates, dropDupAux_filter]
  simp

/-- `drop_duplicates` followed by a key-preserving per-row map keeps, for
every key, exactly the image of the first occurrence of that key. -/
theorem drop_duplicates_map_filter {α β κ : Type} [DecidableEq κ]
    (key : α → κ) (f : α → β) (keyB : β → κ) (hpres : ∀ a, keyB (f a) = key a)
    (l : List α) (k : κ) :
    ((drop_duplicates key l).map f).filter (fun b => decide (keyB b = k)) =
      ((l.filter (fun a => decide (key a = k))).take 1).map f := by
  rw [List.filter_map]
  have hc : ((fun b => decide (keyB b = k)) ∘ f) = (fun a => decide (key a = k)) := by
    funext a
    simp [hpres]
  rw [hc, drop_duplicates_filter, List.map_take]

/-- The total-amount repair never changes the `sale_id` column. -/
theorem fixSalesTotal_sale_id (r : SalesParsed) : (fixSalesTotal r).sale_id = r.sale_id := by
  unfold fixSalesTotal
  cases r.quantity <;> cases r.unit_price <;> dsimp <;> split <;> rfl

/-- Every sales error tag is the null tag of some required column. -/
theorem salesErrorTags_subset (r : SalesParsed) :
    ∀ e ∈ salesErrorTags r, e ∈ salesRequiredCols.map (fun c => "NULL:" ++ c) := by
  intro e he
  unfold salesErrorTags at he
  obtain ⟨c, hcf, rfl⟩ := List.mem_map.mp he
  exact List.mem_map_of_mem _ (List.mem_of_mem_filter hcf)

/-- A present `total_amount` never yields its null tag. -/
theorem total_amount_tag_not_mem (r : SalesParsed) (h : r.total_amount ≠ none) :
    "NULL:total_amount" ∉ salesErrorTags r := by
  intro hmem
  unfold salesErrorTags at hmem
  obtain ⟨c, hcf, he⟩ := List.mem_map.mp hmem
  have hc := List.mem_of_mem_filter hcf
  have hp := (List.mem_filter.mp hcf).2
  fin_cases hc <;> first
    | exact absurd he (by decide)
    | (simp only [salesIsNull, Option.isNone_iff_eq_none] at hp; exact h hp)

/-! ## Claim theorems -/

/-- C1: for every domain state and every set S of raw-batch identifiers,
`get_unprocessed_bronze_files` evaluated immediately after
`mark_bronze_files_processed(D, S)` returns a list disjoint from S. -/
theorem C1_unprocessed_disjoint_after_commit
    (allFiles processed S : List String) :
    List.Disjoint
      (get_unprocessed_bronze_files allFiles (mark_bronze_files_processed processed S))
      S := by
  intro f hf hfS
  unfold get_unprocessed_bronze_files at hf
  have h2 := (List.mem_filter.mp hf).2
  simp [mark_bronze_files_processed, List.mem_append, not_or] at h2
  exact h2.2 hfS

/-- C2: evaluation of the run loop at a batch list containing one readable
and one unreadable file. The unreadable `bad.csv` is excluded from the run's
input set, but — because `run` passes the whole file list to
`mark_bronze_files_processed` whenever at least one file was readable — it
IS marked processed, and the next `get_unprocessed_bronze_files` does not
return it again, contrary to the claim. -/
theorem C2_failed_batch_is_marked_processed :
    parseEx "bad.csv" = none ∧
    (bronze_to_silver_domain parseEx ["good.csv", "bad.csv"]).combined = [salesRowEx] ∧
    "bad.csv" ∈ (bronze_to_silver_domain parseEx ["good.csv", "bad.csv"]).marked ∧
    get_unprocessed_bronze_files ["good.csv", "bad.csv"]
      (mark_bronze_files_processed []
        (bronze_to_silver_domain parseEx ["good.csv", "bad.csv"]).marked) = [] := by
  refine ⟨rfl, rfl, ?_, ?_⟩ <;> decide

/-- C3 counterexample: a ledger file that exists but whose content cannot be
decoded makes `_load_processed_state` raise (`json.load` has no handler), so
loading does NOT return the empty set for a corrupt state file. -/
theorem C3_counterexample_corrupt_state_raises :
    _load_processed_state (some "not json") jsonLoadEx =
      Except.error "json.JSONDecodeError" ∧
    _load_processed_state (some "not json") jsonLoadEx ≠ Except.ok [] := by
  exact ⟨rfl, by simp [_load_processed_state, jsonLoadEx]⟩

/-- C3 (amended): a missing ledger file loads as the empty set; a ledger
file that exists but whose content cannot be decoded makes the load raise a
JSON decode error instead of returning the empty set. -/
theorem C3_missing_empty_corrupt_raises
    (jsonLoad : String → Option (List String)) (content : String) :
    _load_processed_state none jsonLoad = Except.ok [] ∧
    (jsonLoad content = none →
      _load_processed_state (some content) jsonLoad =
        Except.error "json.JSONDecodeError") := by
  constructor
  · rfl
  · intro h
    simp [_load_processed_state, h]

/-- C3 witness: the amended behaviour at the concrete corrupt content. -/
theorem C3_missing_empty_corrupt_raises_witness :
    _load_processed_state none jsonLoadEx = Except.ok [] ∧
    _load_processed_state (some "not json") jsonLoadEx =
      Except.error "json.JSONDecodeError" :=
  ⟨(C3_missing_empty_corrupt_raises jsonLoadEx "not json").1,
   (C3_missing_empty_corrupt_raises jsonLoadEx "not json").2 rfl⟩

/-- C4: for every input record list, the cleaned output of each domain
processor contains, for every primary-key value (`sale_id`, `event_id`,
`movement_id`), exactly the rows obtained by cleaning the FIRST occurrence
of that key in input order (`take 1` of the key's occurrences); duplicated
keys therefore collapse to their first occurrence. -/
theorem C4_dedup_keeps_first_occurrence :
    (∀ (pt : String → Option Nat) (now : Nat) (rows : List SalesRow) (k : Option String),
      (_process_sales pt now rows).filter (fun c => decide (c.row.sale_id = k)) =
        (((rows.map (parseSalesRow pt)).filter (fun p => decide (p.sale_id = k))).take 1).map
          (finalizeSalesRow now)) ∧
    (∀ (pt : String → Option Nat) (now : Nat) (rows : List EventRow) (k : Option String),
      (_process_customer_events pt now rows).filter (fun c => decide (c.row.event_id = k)) =
        (((rows.map (parseEventRow pt)).filter (fun p => decide (p.event_id = k))).take 1).map
          (finalizeEventRow now)) ∧
    (∀ (pt : String → Option Nat) (now : Nat) (rows : List InvRow) (k : Option String),
      (_process_inventory pt now rows).filter (fun c => decide (c.row.movement_id = k)) =
        (((rows.map (parseInvRow pt)).filter (fun p => decide (p.movement_id = k))).take 1).map
          (finalizeInvRow now)) := by
  refine ⟨fun pt now rows k => ?_, fun pt now rows k => ?_, fun pt now rows k => ?_⟩
  · unfold _process_sales
    exact drop_duplicates_map_filter (fun r => r.sale_id) (finalizeSalesRow now)
      (fun c => c.row.sale_id)
      (fun a => by simp only [finalizeSalesRow, fixSalesTotal_sale_id]) _ k
  · unfold _process_customer_events
    exact drop_duplicates_map_filter (fun r => r.event_id) (finalizeEventRow now)
      (fun c => c.row.event_id) (fun a => rfl) _ k
  · unfold _process_inventory
    exact drop_duplicates_map_filter (fun r => r.movement_id) (finalizeInvRow now)
      (fun c => c.row.movement_id) (fun a => rfl) _ k

/-- C5: each missing required field of a sales record appends its own
`NULL:<field>` tag (distinct fields give distinct tags, so a record missing
two required fields carries both), and the finalized `is_valid` is true
exactly when the error list is empty. -/
theorem C5_error_accumulation (now : Nat) (r : SalesParsed) :
    (∀ c ∈ salesRequiredCols, salesIsNull r c = true →
      ("NULL:" ++ c) ∈ (finalizeSalesRow now r).validation_errors) ∧
    (finalizeSalesRow now r).validation_errors.Nodup ∧
    ((finalizeSalesRow now r).is_valid = true ↔
      (finalizeSalesRow now r).validation_errors = []) := by
  refine ⟨fun c hc hnull => ?_, ?_, ?_⟩
  · exact List.mem_map_of_mem _ (List.mem_filter.mpr ⟨hc, hnull⟩)
  · have hsub : ((salesRequiredCols.filter (fun c => salesIsNull r c)).map
        (fun c => "NULL:" ++ c)).Sublist
        (salesRequiredCols.map (fun c => "NULL:" ++ c)) :=
      (List.filter_sublist _).map _
    have hnd : (salesRequiredCols.map (fun c => "NULL:" ++ c)).Nodup := by decide
    exact hnd.sublist hsub
  · simp [finalizeSalesRow, List.isEmpty_iff]

/-- C5 witness: the record missing both `quantity` and `unit_price` carries
both null tags and is invalid. -/
theorem C5_error_accumulation_witness :
    ("NULL:quantity") ∈ (finalizeSalesRow 0 salesMissingTwo).validation_errors ∧
    ("NULL:unit_price") ∈ (finalizeSalesRow 0 salesMissingTwo).validation_errors ∧
    (finalizeSalesRow 0 salesMissingTwo).is_valid = false :=
  ⟨(C5_error_accumulation 0 salesMissingTwo).1 "quantity" (by decide) (by decide),
   (C5_error_accumulation 0 salesMissingTwo).1 "unit_price" (by decide) (by decide),
   by decide⟩

/-- C6: for every sales record with quantity and unit price present and a
total that differs from `round(quantity * unit_price, 2)` by more than 0.01,
the cleaned record's total is overwritten with the recomputed value, the
error list is exactly the null tags of step 3 (the repair appends nothing),
no tag for `total_amount` is present, and every tag is a null tag of some
required column. -/
theorem C6_derived_value_repair (now : Nat) (r : SalesParsed) (q p t : ℚ)
    (hq : r.quantity = some q) (hp : r.unit_price = some p)
    (ht : r.total_amount = some t) (hmis : |t - round2 (q * p)| > 1 / 100) :
    (finalizeSalesRow now r).row.total_amount = some (round2 (q * p)) ∧
    (finalizeSalesRow now r).validation_errors = salesErrorTags r ∧
    "NULL:total_amount" ∉ (finalizeSalesRow now r).validation_errors ∧
    ∀ e ∈ (finalizeSalesRow now r).validation_errors,
      e ∈ salesRequiredCols.map (fun c => "NULL:" ++ c) := by
  refine ⟨?_, rfl, ?_, ?_⟩
  · unfold finalizeSalesRow fixSalesTotal
    rw [hq, hp, ht]
    simp only [decide_eq_true_eq]
    rw [if_pos hmis]
  · exact total_amount_tag_not_mem r (by rw [ht]; exact Option.some_ne_none t)
  · exact salesErrorTags_subset r

/-- C6 witness: quantity 3, unit price 10.00, corrupted total 35.00 is
repaired to 30.00 with no error tag. -/
theorem C6_derived_value_repair_witness :
    (finalizeSalesRow 0 salesCorruptTotal).row.total_amount = some 30 ∧
    "NULL:total_amount" ∉ (finalizeSalesRow 0 salesCorruptTotal).validation_errors ∧
    (finalizeSalesRow 0 salesCorruptTotal).is_valid = true := by
  have h := C6_derived_value_repair 0 salesCorruptTotal 3 10 35 rfl rfl rfl
    (by norm_num [round2])
  refine ⟨?_, h.2.2.1, by decide⟩
  rw [h.1]
  norm_num [round2]

/-- The sales builder depends on its input only through the valid rows. -/
theorem build_sales_filter_eq (dateOf : Nat → Nat) (df : List (CleanRec SalesParsed)) :
    _build_daily_sales_summary dateOf df =
      if (df.filter (fun c => c.is_valid)).isEmpty then none
      else some (salesGoldCore dateOf (df.filter (fun c => c.is_valid))) := by
  unfold _build_daily_sales_summary
  by_cases h : df.isEmpty = true
  · rw [List.isEmpty_iff.mp h]
    simp
  · simp [h]

/-- The events builder depends on its input only through the valid rows. -/
theorem build_events_filter_eq (dateOf : Nat → Nat) (df : List (CleanRec EventParsed)) :
    _build_customer_activity_summary dateOf df =
      if (df.filter (fun c => c.is_valid)).isEmpty then none
      else some (eventsGoldCore dateOf (df.filter (fun c => c.is_valid))) := by
  unfold _build_customer_activity_summary
  by_cases h : df.isEmpty = true
  · rw [List.isEmpty_iff.mp h]
    simp
  · simp [h]

/-- The inventory builder depends on its input only through the valid rows. -/
theorem build_inv_filter_eq (dateOf : Nat → Nat) (df : List (CleanRec InvParsed)) :
    _build_inventory_summary dateOf df =
      if (df.filter (fun c => c.is_valid)).isEmpty then none
      else some (invGoldCore dateOf (df.filter (fun c => c.is_valid))) := by
  unfold _build_inventory_summary
  by_cases h : df.isEmpty = true
  · rw [List.isEmpty_iff.mp h]
    simp
  · simp [h]

/-- Reading a path just written returns the written data. -/
theorem storeRead_write_same {α : Type} (path : List String) (d : α)
    (s : List (List String × α)) : storeRead path (storeWrite path d s) = some d := by
  induction s with
  | nil => simp [storeWrite, storeRead]
  | cons hd tl ih =>
    obtain ⟨p, x⟩ := hd
    by_cases h : p = path <;> simp [storeWrite, storeRead, h, ih]

/-- Writing one path leaves every other path's content unchanged. -/
theorem storeRead_write_other {α : Type} {path q : List String} (hne : q ≠ path)
    (d : α) (s : List (List String × α)) :
    storeRead q (storeWrite path d s) = storeRead q s := by
  induction s with
  | nil =>
    simp only [storeWrite, storeRead]
    rw [if_neg (fun hh => hne hh.symm)]
  | cons hd tl ih =>
    obtain ⟨p, x⟩ := hd
    by_cases h : p = path
    · subst h
      simp [storeWrite, storeRead, Ne.symm hne]
    · by_cases h2 : p = q
      · subst h2
        simp [storeWrite, storeRead, h, ih]
      · simp [storeWrite, storeRead, h, h2, ih]

/-- Distinct formatted timestamps give distinct snapshot filenames. -/
theorem gold_filename_injective (table : String) {t₁ t₂ : Nat}
    (h : fmtTimestamp t₁ ≠ fmtTimestamp t₂) :
    gold_filename table t₁ ≠ gold_filename table t₂ := by
  intro he
  apply h
  have hd := congrArg String.data he
  simp only [gold_filename, String.data_append] at hd
  exact String.ext (List.append_cancel_left (List.append_cancel_right hd))

/-- Distinct formatted timestamps give distinct snapshot paths. -/
theorem gold_path_injective (table : String) {t₁ t₂ : Nat}
    (h : fmtTimestamp t₁ ≠ fmtTimestamp t₂) :
    gold_path table t₁ ≠ gold_path table t₂ := by
  intro he
  simp only [gold_path, List.cons.injEq, and_true] at he
  exact gold_filename_injective table h he.2.2

/-- C7: in the net-position rollup, each known movement type is pivoted to a
numeric column holding the summed quantity of that type within the (date,
product, warehouse) group, a type absent from the group defaults to 0,
`net_position = inbound - outbound`, and the spec's example — movements
inbound:50, outbound:20, adjustment:5 through `_build_inventory_summary` —
yields the row (inbound 50, outbound 20, adjustment 5, net_position 30). -/
theorem C7_net_position_pivot :
    (∀ (dateOf : Nat → Nat) (valid : List (CleanRec InvParsed))
        (k : Nat × String × String × String) (t : String),
      (∀ c ∈ valid, invNetKey dateOf c = some k → c.row.movement_type ≠ some t) →
      pivotQty dateOf valid k t = 0) ∧
    (∀ (dateOf : Nat → Nat) (valid : List (CleanRec InvParsed))
        (k : Nat × String × String × String),
      (netPositionRowOf dateOf valid k).net_position =
        (netPositionRowOf dateOf valid k).inbound -
          (netPositionRowOf dateOf valid k).outbound) ∧
    ((_build_inventory_summary id [finalizeInvRow 0 invInbound,
        finalizeInvRow 0 invOutbound, finalizeInvRow 0 invAdjustment]).map
          InvGold.netpos =
      some [{ date := 0, product_id := "P-1", product_name := "Widget"
              warehouse_id := "W-1", inbound := 50, outbound := 20
              adjustment := 5, net_position := 30 }]) := by
  refine ⟨fun dateOf valid k t habs => ?_, fun dateOf valid k => rfl, ?_⟩
  · unfold pivotQty
    have hnil : valid.filter (fun c =>
        decide (invNetKey dateOf c = some k) && decide (c.row.movement_type = some t)) = [] := by
      apply List.filter_eq_nil_iff.mpr
      intro c hc
      intro hboth
      rw [Bool.and_eq_true, decide_eq_true_eq, decide_eq_true_eq] at hboth
      exact habs c hc hboth.1 hboth.2
    rw [hnil]
    rfl
  · norm_num [_build_inventory_summary, invGoldCore, finalizeInvRow, invErrorTags,
      invIsNull, invRequiredCols, VALID_MOVEMENT_TYPES, invInbound, invOutbound,
      invAdjustment, groupKeys, drop_duplicates, dropDupAux, invNetKey,
      invMovementKey, netPositionRowOf, pivotQty, sumCol, movementRowOf, round2,
      countCol]
    norm_num +decide [List.filter, invNetKey, invInbound, invOutbound, invAdjustment,
      List.filterMap_cons, List.filterMap_nil, List.sum_cons, List.sum_nil]

/-- C8 counterexample: two `save_to_gold` calls for the same table in the
same second produce the SAME snapshot path, so the second write overwrites
the first — the store ends with one file holding the second DataFrame. -/
theorem C8_counterexample_same_second_overwrite :
    save_to_gold "daily_sales_summary" 5 (1 : ℕ)
        (save_to_gold "daily_sales_summary" 5 (0 : ℕ) []) =
      [(gold_path "daily_sales_summary" 5, 1)] ∧
    storeRead (gold_path "daily_sales_summary" 5)
        (save_to_gold "daily_sales_summary" 5 (1 : ℕ)
          (save_to_gold "daily_sales_summary" 5 (0 : ℕ) [])) = some 1 := by
  constructor <;> decide

/-- C8 (amended): provided the two runs carry distinct second-resolution
timestamps (distinct `strftime` strings), two `save_to_gold` calls for the
same table write two distinct snapshot paths, neither overwriting the
other, and both remain independently readable. -/
theorem C8_snapshot_no_overwrite (α : Type) (table : String) (t₁ t₂ : Nat)
    (df₁ df₂ : α) (store : List (List String × α))
    (h : fmtTimestamp t₁ ≠ fmtTimestamp t₂) :
    gold_path table t₁ ≠ gold_path table t₂ ∧
    storeRead (gold_path table t₁)
      (save_to_gold table t₂ df₂ (save_to_gold table t₁ df₁ store)) = some df₁ ∧
    storeRead (gold_path table t₂)
      (save_to_gold table t₂ df₂ (save_to_gold table t₁ df₁ store)) = some df₂ := by
  have hpath := gold_path_injective table h
  refine ⟨hpath, ?_, ?_⟩
  · unfold save_to_gold
    rw [storeRead_write_other hpath]
    exact storeRead_write_same _ _ _
  · exact storeRead_write_same _ _ _

/-- C8 witness: two writes one second apart leave both snapshots readable. -/
theorem C8_snapshot_no_overwrite_witness :
    gold_path "daily_sales_summary" 5 ≠ gold_path "daily_sales_summary" 6 ∧
    storeRead (gold_path "daily_sales_summary" 5)
      (save_to_gold "daily_sales_summary" 6 (1 : ℕ)
        (save_to_gold "daily_sales_summary" 5 (0 : ℕ) [])) = some 0 ∧
    storeRead (gold_path "daily_sales_summary" 6)
      (save_to_gold "daily_sales_summary" 6 (1 : ℕ)
        (save_to_gold "daily_sales_summary" 5 (0 : ℕ) [])) = some 1 :=
  C8_snapshot_no_overwrite ℕ "daily_sales_summary" 5 6 0 1 [] (by decide)

/-- C9: every gold rollup of every domain is computed from the concatenation
of all silver partitions restricted to the `is_valid = true` rows — two
silver histories with the same valid rows produce identical gold outputs,
and an invalid record contributes nothing to any builder's output. -/
theorem C9_aggregates_valid_rows_only :
    (∀ (dateOf : Nat → Nat) (parts₁ parts₂ : List (List (CleanRec SalesParsed))),
      (read_from_silver parts₁).filter (fun c => c.is_valid) =
        (read_from_silver parts₂).filter (fun c => c.is_valid) →
      _build_daily_sales_summary dateOf (read_from_silver parts₁) =
        _build_daily_sales_summary dateOf (read_from_silver parts₂)) ∧
    (∀ (dateOf : Nat → Nat) (r : CleanRec SalesParsed)
        (df : List (CleanRec SalesParsed)), r.is_valid = false →
      _build_daily_sales_summary dateOf (r :: df) =
        _build_daily_sales_summary dateOf df) ∧
    (∀ (dateOf : Nat → Nat) (parts₁ parts₂ : List (List (CleanRec EventParsed))),
      (read_from_silver parts₁).filter (fun c => c.is_valid) =
        (read_from_silver parts₂).filter (fun c => c.is_valid) →
      _build_customer_activity_summary dateOf (read_from_silver parts₁) =
        _build_customer_activity_summary dateOf (read_from_silver parts₂)) ∧
    (∀ (dateOf : Nat → Nat) (r : CleanRec EventParsed)
        (df : List (CleanRec EventParsed)), r.is_valid = false →
      _build_customer_activity_summary dateOf (r :: df) =
        _build_customer_activity_summary dateOf df) ∧
    (∀ (dateOf : Nat → Nat) (parts₁ parts₂ : List (List (CleanRec InvParsed))),
      (read_from_silver parts₁).filter (fun c => c.is_valid) =
        (read_from_silver parts₂).filter (fun c => c.is_valid) →
      _build_inventory_summary dateOf (read_from_silver parts₁) =
        _build_inventory_summary dateOf (read_from_silver parts₂)) ∧
    (∀ (dateOf : Nat → Nat) (r : CleanRec InvParsed)
        (df : List (CleanRec InvParsed)), r.is_valid = false →
      _build_inventory_summary dateOf (r :: df) =
        _build_inventory_summary dateOf df) := by
  refine ⟨fun dateOf p₁ p₂ h => ?_, fun dateOf r df hr => ?_,
          fun dateOf p₁ p₂ h => ?_, fun dateOf r df hr => ?_,
          fun dateOf p₁ p₂ h => ?_, fun dateOf r df hr => ?_⟩
  · rw [build_sales_filter_eq, build_sales_filter_eq, h]
  · rw [build_sales_filter_eq, build_sales_filter_eq, List.filter_cons, hr]
    simp
  · rw [build_events_filter_eq, build_events_filter_eq, h]
  · rw [build_events_filter_eq, build_events_filter_eq, List.filter_cons, hr]
    simp
  · rw [build_inv_filter_eq, build_inv_filter_eq, h]
  · rw [build_inv_filter_eq, build_inv_filter_eq, List.filter_cons, hr]
    simp

/-- C9 witness: adding an invalid sales record (and an extra partition
holding it) leaves the sales gold output unchanged. -/
theorem C9_aggregates_valid_rows_only_witness :
    _build_daily_sales_summary id
        (read_from_silver [[finalizeSalesRow 0 salesMissingTwo],
          [finalizeSalesRow 0 salesFull]]) =
      _build_daily_sales_summary id (read_from_silver [[finalizeSalesRow 0 salesFull]]) ∧
    _build_daily_sales_summary id
        (finalizeSalesRow 0 salesMissingTwo :: [finalizeSalesRow 0 salesFull]) =
      _build_daily_sales_summary id [finalizeSalesRow 0 salesFull] :=
  ⟨C9_aggregates_valid_rows_only.1 id _ _ rfl,
   C9_aggregates_valid_rows_only.2.1 id _ _ (by decide)⟩

/-- C10: a sales record whose timestamp text does not parse is coerced to a
null timestamp, the cleaning of the record carries the `NULL:timestamp` tag
(no parse-specific tag exists: every tag is a null tag of a required
column), and the record is invalid; the run continues and still produces
the record. -/
theorem C10_unparseable_timestamp (pt : String → Option Nat) (now : Nat)
    (r : SalesRow) (s : String) (hts : r.timestamp = some s) (hpt : pt s = none) :
    (parseSalesRow pt r).timestamp = none ∧
    _process_sales pt now [r] = [finalizeSalesRow now (parseSalesRow pt r)] ∧
    "NULL:timestamp" ∈ (finalizeSalesRow now (parseSalesRow pt r)).validation_errors ∧
    (finalizeSalesRow now (parseSalesRow pt r)).is_valid = false ∧
    ∀ e ∈ (finalizeSalesRow now (parseSalesRow pt r)).validation_errors,
      e ∈ salesRequiredCols.map (fun c => "NULL:" ++ c) := by
  have hnull : (parseSalesRow pt r).timestamp = none := by
    simp [parseSalesRow, hts, hpt]
  have hmem : "NULL:timestamp" ∈ salesErrorTags (parseSalesRow pt r) := by
    apply List.mem_map_of_mem
    apply List.mem_filter.mpr
    refine ⟨by decide, ?_⟩
    simp [salesIsNull, hnull]
  refine ⟨hnull, ?_, hmem, ?_, salesErrorTags_subset _⟩
  · simp [_process_sales, drop_duplicates, dropDupAux]
  · show (salesErrorTags (parseSalesRow pt r)).isEmpty = false
    cases he : salesErrorTags (parseSalesRow pt r) with
    | nil => exact absurd (he ▸ hmem) (List.not_mem_nil _)
    | cons a l => rfl

/-- C10 witness: the concrete unparseable-timestamp row is flagged
`NULL:timestamp` and invalid, and the run still emits it. -/
theorem C10_unparseable_timestamp_witness :
    _process_sales ptNone 0 [salesBadTimestamp] =
      [finalizeSalesRow 0 (parseSalesRow ptNone salesBadTimestamp)] ∧
    "NULL:timestamp" ∈
      (finalizeSalesRow 0 (parseSalesRow ptNone salesBadTimestamp)).validation_errors ∧
    (finalizeSalesRow 0 (parseSalesRow ptNone salesBadTimestamp)).is_valid = false := by
  have h := C10_unparseable_timestamp ptNone 0 salesBadTimestamp "not-a-date" rfl rfl
  exact ⟨h.2.1, h.2.2.1, h.2.2.2.1⟩
